import Mathlib

/-!
Verification development for the Tinhk case-analyzer backend.

The development shallowly embeds the request-processing pipeline of the
repository (src/main.py, src/ai.py, src/models.py, src/constants.py):

* `convert_blob_to_base64` embeds ai.py:20-57,
* `dataUriContentType` and `upload_to_storage` embed ai.py:66-105,
* `mkKey`, `processImages` and `format_messages` embed ai.py:108-141,
* `validationError` and `analyze_case` embed the endpoint handler
  main.py:46-107,
* `postFormatCheck` embeds main.py:75-79 and `analyze_case_after_format`
  embeds main.py:96-107 (both unreachable in the running program, see the
  comment on `analyze_case`).

External effects (HTTP fetches, S3 put_object, the model provider, the
database) are modelled by explicit oracle parameters, and the observable
side effects of a handler run are returned as an explicit trace.  Python
string operations are re-implemented structurally over `List Char` so that
every definition evaluates by kernel reduction on concrete inputs.
-/

namespace Tinhk

/-- Structural test that the character list `pat` occurs as a contiguous
sublist of `l`.  Used to embed the Python membership test of ai.py:75, which
asks whether the text `;base64` occurs in the data-URI header. -/
def listContainsSub (pat : List Char) : List Char → Bool
  | [] => pat.isPrefixOf ([] : List Char)
  | c :: rest => pat.isPrefixOf (c :: rest) || listContainsSub pat rest

/-- Structural embedding of Python `s.split(sep, 1)` for a one-character
separator: returns the parts before and after the first occurrence of `sep`,
or `none` when `sep` does not occur. -/
def splitFirstChar (sep : Char) : List Char → Option (List Char × List Char)
  | [] => none
  | c :: rest =>
    if c = sep then some ([], rest)
    else
      match splitFirstChar sep rest with
      | none => none
      | some (a, b) => some (c :: a, b)

/-- Structural embedding of Python `s.split(sep)` for a one-character
separator.  The result is always non-empty. -/
def splitOnChar (sep : Char) : List Char → List (List Char)
  | [] => [[]]
  | c :: rest =>
    let r := splitOnChar sep rest
    if c = sep then [] :: r
    else
      match r with
      | [] => [[c]]
      | h :: t => (c :: h) :: t

/-- Characters before the first occurrence of `sep`, embedding Python
`s.split(sep)[0]`. -/
def takeUntilChar (sep : Char) (l : List Char) : List Char :=
  l.takeWhile (fun c => c ≠ sep)

/-- Embeds Python `p.startswith(q)` structurally. -/
def pyStartsWith (s q : String) : Bool :=
  q.data.isPrefixOf s.data

/-- Embeds the Python truthiness test `not s.strip()`: true exactly when the
string consists only of whitespace (in particular when it is empty).  Lean
`Char.isWhitespace` covers space, tab, carriage return and newline; the
Python versions of vertical tab and form feed are immaterial to every claim
considered here. -/
def pyStripIsEmpty (s : String) : Bool :=
  s.data.all Char.isWhitespace

/-- Embeds `str(x)` for an optional string argument: Python renders the
default `None` of `additional_context` as the text `None` inside the
f-string at main.py:71. -/
def pyStrOfOpt : Option String → String
  | none => "None"
  | some s => s

/-- Embeds the URL rewrite of ai.py:24, in which `blob_url.replace` removes
the scheme text `blob:` from the URL: every
occurrence of the five-character pattern `blob:` is removed, scanning left to
right. -/
def stripBlobScheme : List Char → List Char
  | 'b' :: 'l' :: 'o' :: 'b' :: ':' :: rest => stripBlobScheme rest
  | c :: rest => c :: stripBlobScheme rest
  | [] => []

/-- The allow-list of ai.py:45 and ai.py:79, as the membership test
`content_type in allowed_types`. -/
def isAllowedType (ct : String) : Bool :=
  ct = "image/png" || ct = "image/jpeg" || ct = "image/gif" || ct = "image/webp"

/-- Calendar date as produced by `datetime.date.today()`. -/
structure PyDate where
  year : Nat
  month : Nat
  day : Nat
deriving DecidableEq, Repr

/-- Zero-padded two-digit rendering, as `%m` / `%d` in `strftime`. -/
def pad2 (n : Nat) : String :=
  if n < 10 then "0" ++ toString n else toString n

/-- Zero-padded four-digit rendering, as `%Y` in `strftime`. -/
def pad4 (n : Nat) : String :=
  if n < 10 then "000" ++ toString n
  else if n < 100 then "00" ++ toString n
  else if n < 1000 then "0" ++ toString n
  else toString n

/-- Embeds `date.today().strftime` with the format `%Y/%m/%d` (ai.py:129). -/
def strftimeYmd (d : PyDate) : String :=
  pad4 d.year ++ "/" ++ pad2 d.month ++ "/" ++ pad2 d.day

/-- Embeds the storage-key f-string of ai.py:129, which joins the literal
`cases/`, the current date rendered as `%Y/%m/%d`, and a fresh `uuid.uuid4()`
value followed by the literal extension `.jpg` — the uuid token is passed in
as `token`. -/
def mkKey (today : PyDate) (token : String) : String :=
  "cases/" ++ strftimeYmd today ++ "/" ++ token ++ ".jpg"

/-- Browser-mimicking request headers of ai.py:27-32. -/
structure HttpHeaders where
  userAgent : String
  accept : String
  acceptEncoding : String
  connection : String
deriving DecidableEq, Repr

/-- The literal header set built in `convert_blob_to_base64` (ai.py:27-32). -/
def browserHeaders : HttpHeaders :=
  { userAgent := "Mozilla/5.0 (Windows NT 10.0; Win64; x64) AppleWebKit/537.36 (KHTML, like Gecko) Chrome/91.0.4472.124 Safari/537.36"
    accept := "image/webp,image/apng,image/*,*/*;q=0.8"
    acceptEncoding := "gzip, deflate, br"
    connection := "keep-alive" }

/-- The final HTTP response the `requests.get` call resolves to (after any
redirects).  `contentTypeHeader` is the raw `content-type` header, empty when
absent; the body is abstracted as its base64 rendering, which is all the code
ever does with it. -/
structure HttpResponse where
  status : Nat
  contentTypeHeader : String
  bodyB64 : String
deriving DecidableEq, Repr

/-- Outcome of the network fetch: a transport-level failure
(`requests.exceptions.RequestException`) or a response. -/
inductive FetchOutcome
  | netError
  | ok (r : HttpResponse)
deriving DecidableEq, Repr

/-- Record of the one GET performed by `convert_blob_to_base64`. -/
structure FetchEvent where
  url : String
  headers : HttpHeaders
  allowRedirects : Bool
deriving DecidableEq, Repr

/-- Error outcomes of the normalizer (all surfaced as `ValueError` in the
source): `fetchFailed` for network errors and HTTP error statuses
(ai.py:52-54 via `raise_for_status`), `htmlBlob` for a `text/html` response
(ai.py:41-42), and `unsupportedType` for content types outside the
allow-list (ai.py:45-47). -/
inductive NormError
  | fetchFailed
  | htmlBlob
  | unsupportedType (ct : String)
deriving DecidableEq, Repr

/-- Embeds the content-type computation of ai.py:38: the content-type
response header (defaulted to the empty string when absent), lowercased and
truncated at the first semicolon. -/
def respContentType (r : HttpResponse) : String :=
  ⟨takeUntilChar ';' (r.contentTypeHeader.data.map Char.toLower)⟩

/-- Embeds `convert_blob_to_base64` (ai.py:20-57) over a fetch oracle.
Returns the result of the call together with the `FetchEvent` describing the
GET it performs.  `raise_for_status` raises exactly for statuses in
[400, 600); the resulting `requests` exception is converted to the
fetch-failure `ValueError` by the handler at ai.py:52-54. -/
def convert_blob_to_base64 (fetch : String → FetchOutcome) (blob_url : String) :
    Except NormError String × FetchEvent :=
  let actual_url : String := ⟨stripBlobScheme blob_url.data⟩
  let ev : FetchEvent :=
    { url := actual_url, headers := browserHeaders, allowRedirects := true }
  match fetch actual_url with
  | FetchOutcome.netError => (Except.error NormError.fetchFailed, ev)
  | FetchOutcome.ok r =>
    if 400 ≤ r.status ∧ r.status < 600 then (Except.error NormError.fetchFailed, ev)
    else
      let content_type := respContentType r
      if content_type = "text/html" then (Except.error NormError.htmlBlob, ev)
      else if isAllowedType content_type then
        (Except.ok ("data:" ++ content_type ++ ";base64," ++ r.bodyB64), ev)
      else (Except.error (NormError.unsupportedType content_type), ev)

/-- Embeds the content-type extraction of `upload_to_storage` (ai.py:69-76):
default `image/jpeg`; when a comma is present the payload after the first
comma is kept, and when the part before it contains `;base64` the declared
type is the second colon-separated field of the header truncated at the
first semicolon — where a header without a colon raises `IndexError`
(modelled as `none`). -/
def dataUriContentType (base64_data : String) : Option (String × String) :=
  match splitFirstChar ',' base64_data.data with
  | none => some ("image/jpeg", base64_data)
  | some (header, rest) =>
    if listContainsSub ";base64".data header then
      match (splitOnChar ':' header).get? 1 with
      | none => none
      | some t => some (⟨takeUntilChar ';' t⟩, ⟨rest⟩)
    else some ("image/jpeg", ⟨rest⟩)

/-- Metadata of one successful S3 `put_object` call (ai.py:92-99). -/
structure UploadEvent where
  key : String
  contentType : String
  contentDisposition : String
  acl : String
deriving DecidableEq, Repr

/-- Embeds `upload_to_storage` (ai.py:66-105) over a put-success oracle
`putOk`.  `none` models the function raising (unsupported content type at
ai.py:80-81, a malformed data-URI header, or an S3 failure; base64-decoding
of the payload body is never inspected by any claim and its failure mode is
folded into `putOk`).  On success it returns the permanent URL of ai.py:102
together with the upload event. -/
def upload_to_storage (bucket : String) (putOk : Bool) (base64_data key : String) :
    Option (String × UploadEvent) :=
  match dataUriContentType base64_data with
  | none => none
  | some (content_type, _payload) =>
    if isAllowedType content_type then
      if putOk then
        some ("https://" ++ bucket ++ ".s3.amazonaws.com/" ++ key,
              { key := key, contentType := content_type,
                contentDisposition := "inline", acl := "public-read" })
      else none
    else none

/-- One entry of the user-message content list of ai.py:113-121: the text
part or an `image_url` part. -/
inductive ContentPart
  | text (s : String)
  | imageUrl (u : String)
deriving DecidableEq, Repr

/-- The messages list built by `format_messages`: the system message and the
content list of the user message. -/
structure Messages where
  systemContent : String
  userContent : List ContentPart
deriving DecidableEq, Repr

/-- Embeds the per-image loop of `format_messages` (ai.py:125-137).  `k`
counts the uuid draws made so far: a uuid is drawn (and `putOk` consulted)
once for every entry with the `data:image` prefix, whether or not its upload
succeeds; entries without the prefix are dropped with a warning and consume
no uuid.  Failed uploads are logged and skipped (`continue`).  Returns the
`processed_images` content parts and the successful upload events, both in
input order. -/
def processImages (bucket : String) (today : PyDate) (tokens : Nat → String)
    (putOk : Nat → Bool) : List String → Nat → List ContentPart × List UploadEvent
  | [], _ => ([], [])
  | url :: rest, k =>
    if pyStartsWith url "data:image" then
      let key := mkKey today (tokens k)
      match upload_to_storage bucket (putOk k) url key with
      | some (permanent_url, ev) =>
        let r := processImages bucket today tokens putOk rest (k + 1)
        (ContentPart.imageUrl permanent_url :: r.1, ev :: r.2)
      | none => processImages bucket today tokens putOk rest (k + 1)
    else
      processImages bucket today tokens putOk rest k

/-- Embeds `format_messages` (ai.py:108-141): builds the system message and
the user content list `[text] ++ processed_images`, returning it together
with the trace of successful uploads.  The source function performs no
network fetch and never calls `convert_blob_to_base64`; its only effects are
the S3 uploads recorded here. -/
def format_messages (bucket : String) (today : PyDate) (tokens : Nat → String)
    (putOk : Nat → Bool) (system_prompt user_prompt : String)
    (image_urls : List String) : Messages × List UploadEvent :=
  let r := processImages bucket today tokens putOk image_urls 0
  ({ systemContent := system_prompt,
     userContent := ContentPart.text user_prompt :: r.1 }, r.2)

/-- Confidence level of one translation (constants.py:21). -/
inductive Confidence
  | high
  | medium
  | low
deriving DecidableEq, Repr

/-- One `Translation` of constants.py:16-21. -/
structure Translation where
  index : Int
  author : String
  vietnamese_text : String
  english_text : String
  confidence : Confidence
deriving DecidableEq, Repr

/-- The structured model output `CaseAnalysisSchema` of constants.py:23-26. -/
structure CaseAnalysis where
  translations : List Translation
  summary : String
  key_points : String
deriving DecidableEq, Repr

/-- A value submitted as a screenshot entry, as seen by the `isinstance`
check of main.py:64: either a Python string or some non-string value. -/
inductive PyVal
  | str (s : String)
  | nonStr
deriving DecidableEq, Repr

/-- The string content of an entry (only consulted after validation has
established that every entry is a string). -/
def pyStr : PyVal → String
  | PyVal.str s => s
  | PyVal.nonStr => ""

/-- Embeds the validation test on one entry (main.py:64):
`not isinstance(url, str) or not url.strip()`. -/
def badEntry : PyVal → Bool
  | PyVal.nonStr => true
  | PyVal.str s => pyStripIsEmpty s

/-- Embeds the validation block of the handler (main.py:53-65), in source
order: empty title, then empty screenshot list, then the per-entry check.
Returns the status code and detail of the `HTTPException` raised, or `none`
when validation passes. -/
def validationError (case_title : String) (screenshot_urls : List PyVal) :
    Option (Nat × String) :=
  if case_title = "" then some (400, "Case title is required")
  else if screenshot_urls = [] then
    some (400, "At least one screenshot URL is required")
  else if screenshot_urls.any badEntry then
    some (400, "Invalid screenshot URL provided")
  else none

/-- Embeds the f-string of main.py:71:
`Case title: {case_title}\nAdditional context: {additional_context}` (the
optional argument defaults to `None`, rendered literally). -/
def userPrompt (case_title : String) (additional_context : Option String) : String :=
  "Case title: " ++ case_title ++ "\nAdditional context: " ++
    pyStrOfOpt additional_context

/-- Result of one handler invocation: an `HTTPException` with status and
detail, or the success payload of main.py:100/104. -/
inductive HandlerResult
  | error (status : Nat) (detail : String)
  | success (case_id : Option Nat) (title : String) (analysis : CaseAnalysis)
deriving DecidableEq, Repr

/-- The HTTP status of a handler result (a success body is served as 200). -/
def HandlerResult.statusOf : HandlerResult → Nat
  | HandlerResult.error s _ => s
  | HandlerResult.success _ _ _ => 200

/-- Observable side effects of one handler invocation: the successful S3
uploads, whether the model provider was invoked, and whether a database
write was attempted. -/
structure EndpointTrace where
  uploads : List UploadEvent
  modelCalled : Bool
  dbAttempted : Bool
deriving DecidableEq, Repr

/-- Embeds the endpoint handler `analyze_case` (main.py:46-107).

Control flow of the source, traced for the reviewer: after validation the
handler evaluates `await format_messages(...)` (main.py:69-73).
`format_messages` is a plain `def` (ai.py:108) and returns the messages
list, so the call itself runs to completion — performing its S3 uploads —
and then the `await` of the returned list raises
`TypeError: object list cannot be used in await expression`.  That
exception is not a `ValueError`, so it skips the handler at main.py:81 and
is absorbed by the generic `except Exception` at main.py:87-92, which
raises `HTTPException(500, ...)`.  Consequently main.py:75-79 (the
empty-image-set check) and main.py:94-107 (model call and persistence) are
unreachable, the model oracle and store oracle are never consulted, and
every request that passes validation produces the generic 500 response.
The system prompt string (`SYSTEM_PROMPT(config)`, whose template text the
specification places out of scope) is taken as the parameter
`system_prompt`. -/
def analyze_case (bucket : String) (today : PyDate) (tokens : Nat → String)
    (putOk : Nat → Bool)
    (modelOutcome : Except Unit CaseAnalysis) (storeOutcome : Except Unit Nat)
    (system_prompt : String) (case_title : String)
    (screenshot_urls : List PyVal) (additional_context : Option String) :
    HandlerResult × EndpointTrace :=
  match validationError case_title screenshot_urls with
  | some e =>
    (HandlerResult.error e.1 e.2,
     { uploads := [], modelCalled := false, dbAttempted := false })
  | none =>
    let r := format_messages bucket today tokens putOk system_prompt
      (userPrompt case_title additional_context) (screenshot_urls.map pyStr)
    (HandlerResult.error 500 "An unexpected error occurred while processing the images",
     { uploads := r.2, modelCalled := false, dbAttempted := false })

/-- Embeds the check of main.py:75-79 (unreachable in the running program,
see `analyze_case`): the handler raises a 400 when the content list of the
user message is empty or holds at most one entry, that is, when no image
part survived beyond the text entry. -/
def postFormatCheck (msgs : Messages) : Option (Nat × String) :=
  if msgs.userContent = [] ∨ msgs.userContent.length ≤ 1 then
    some (400, "Failed to process images. Please ensure all images are in supported formats (PNG, JPEG)")
  else none

/-- Trace of the post-formatting stage: whether the model provider was
invoked and whether a database write was attempted. -/
structure PostTrace where
  modelCalled : Bool
  dbAttempted : Bool
deriving DecidableEq, Repr

/-- Embeds main.py:96-107, the intended continuation of the handler after
message formatting (unreachable in the running program, see
`analyze_case`): a model failure yields the 500 of main.py:107 with no
database write; on model success a store failure is caught and the analysis
is returned with a null case id (main.py:101-104), while a store success
returns the generated id (main.py:100). -/
def analyze_case_after_format (case_title : String)
    (modelOutcome : Except Unit CaseAnalysis) (storeOutcome : Except Unit Nat) :
    HandlerResult × PostTrace :=
  match modelOutcome with
  | Except.error _ =>
    (HandlerResult.error 500 "An error occurred while analyzing the case",
     { modelCalled := true, dbAttempted := false })
  | Except.ok case_analysis =>
    match storeOutcome with
    | Except.ok case_id =>
      (HandlerResult.success (some case_id) case_title case_analysis,
       { modelCalled := true, dbAttempted := true })
    | Except.error _ =>
      (HandlerResult.success none case_title case_analysis,
       { modelCalled := true, dbAttempted := true })

/-- Inversion of a successful `upload_to_storage` call: the event records
exactly the requested key, its content type passed the allow-list, and the
returned URL is the canonical bucket URL of the key. -/
theorem upload_to_storage_inv {bucket : String} {putOk : Bool} {d key u : String}
    {ev : UploadEvent} (h : upload_to_storage bucket putOk d key = some (u, ev)) :
    ev.key = key ∧ isAllowedType ev.contentType = true ∧
      u = "https://" ++ bucket ++ ".s3.amazonaws.com/" ++ key := by
  unfold upload_to_storage at h
  cases hct : dataUriContentType d with
  | none => rw [hct] at h; exact absurd h (by simp)
  | some p =>
    obtain ⟨ct, payload⟩ := p
    rw [hct] at h
    simp only at h
    split_ifs at h with ha hp
    · simp only [Option.some.injEq, Prod.mk.injEq] at h
      obtain ⟨hu, hev⟩ := h
      subst hev
      exact ⟨rfl, ha, hu.symm⟩

/-- Every upload event of a `processImages` run uses a key built from the
current date and a token drawn at or after the starting counter, and records
an allow-listed content type. -/
theorem processImages_keys {bucket : String} {today : PyDate} {tokens : Nat → String}
    {putOk : Nat → Bool} :
    ∀ (urls : List String) (k : Nat) (ev : UploadEvent),
      ev ∈ (processImages bucket today tokens putOk urls k).2 →
      ∃ j, k ≤ j ∧ ev.key = mkKey today (tokens j) ∧
        isAllowedType ev.contentType = true := by
  intro urls
  induction urls with
  | nil => intro k ev h; simp [processImages] at h
  | cons url rest ih =>
    intro k ev h
    by_cases hs : pyStartsWith url "data:image"
    · simp only [processImages, hs, if_true] at h
      cases hup : upload_to_storage bucket (putOk k) url (mkKey today (tokens k)) with
      | none =>
        rw [hup] at h
        obtain ⟨j, hj, hkey, hct⟩ := ih (k + 1) ev h
        exact ⟨j, by omega, hkey, hct⟩
      | some r =>
        obtain ⟨permanent_url, ev0⟩ := r
        rw [hup] at h
        simp only [List.mem_cons] at h
        cases h with
        | inl heq =>
          subst heq
          obtain ⟨hk, hct, _⟩ := upload_to_storage_inv hup
          exact ⟨k, le_refl k, hk, hct⟩
        | inr hmem =>
          obtain ⟨j, hj, hkey, hct⟩ := ih (k + 1) ev hmem
          exact ⟨j, by omega, hkey, hct⟩
    · simp only [processImages, hs, if_false] at h
      exact ih k ev h

/-- The processed image parts of a `processImages` run are exactly the
canonical URLs of its successful uploads, in the same order. -/
theorem processImages_parts {bucket : String} {today : PyDate} {tokens : Nat → String}
    {putOk : Nat → Bool} :
    ∀ (urls : List String) (k : Nat),
      (processImages bucket today tokens putOk urls k).1 =
        (processImages bucket today tokens putOk urls k).2.map
          (fun ev => ContentPart.imageUrl
            ("https://" ++ bucket ++ ".s3.amazonaws.com/" ++ ev.key)) := by
  intro urls
  induction urls with
  | nil => intro k; simp [processImages]
  | cons url rest ih =>
    intro k
    by_cases hs : pyStartsWith url "data:image"
    · simp only [processImages, hs, if_true]
      cases hup : upload_to_storage bucket (putOk k) url (mkKey today (tokens k)) with
      | none => exact ih (k + 1)
      | some r =>
        obtain ⟨permanent_url, ev0⟩ := r
        obtain ⟨hk, _, hu⟩ := upload_to_storage_inv hup
        simp only [List.map_cons, ih (k + 1)]
        rw [hu, hk]
    · simp only [processImages, hs, if_false]
      exact ih k

/-- Cancellation of a common prefix and suffix of string concatenations. -/
theorem string_append_inj {p q a b : String}
    (h : (p ++ a) ++ q = (p ++ b) ++ q) : a = b := by
  have hd : (p.data ++ a.data) ++ q.data = (p.data ++ b.data) ++ q.data := by
    have h2 := congrArg String.data h
    cases p; cases q; cases a; cases b
    simpa [String.append] using h2
  have h3 : a.data = b.data :=
    List.append_cancel_left (List.append_cancel_right hd)
  exact congrArg String.mk h3

/-- For a fixed date, the storage key determines the token. -/
theorem mkKey_token_inj {d : PyDate} {a b : String}
    (h : mkKey d a = mkKey d b) : a = b := by
  unfold mkKey at h
  exact string_append_inj (p := "cases/" ++ strftimeYmd d ++ "/") (q := ".jpg")
    (by simpa [String.append_assoc] using h)

/-- With an injective token supply, the keys of the uploads of one
`processImages` run are pairwise distinct. -/
theorem processImages_keys_pairwise {bucket : String} {today : PyDate}
    {tokens : Nat → String} {putOk : Nat → Bool}
    (hinj : Function.Injective tokens) :
    ∀ (urls : List String) (k : Nat),
      ((processImages bucket today tokens putOk urls k).2.map
        (fun ev => ev.key)).Pairwise (fun a b => a ≠ b) := by
  intro urls
  induction urls with
  | nil => intro k; simp [processImages]
  | cons url rest ih =>
    intro k
    by_cases hs : pyStartsWith url "data:image"
    · simp only [processImages, hs, if_true]
      cases hup : upload_to_storage bucket (putOk k) url (mkKey today (tokens k)) with
      | none => exact ih (k + 1)
      | some r =>
        obtain ⟨permanent_url, ev0⟩ := r
        obtain ⟨hk, _, _⟩ := upload_to_storage_inv hup
        simp only [List.map_cons, List.pairwise_cons]
        constructor
        · intro key hmem
          simp only [List.mem_map] at hmem
          obtain ⟨ev, hev, hkeq⟩ := hmem
          obtain ⟨j, hj, hkey, _⟩ := processImages_keys rest (k + 1) ev hev
          subst hkeq
          rw [hk, hkey]
          intro hcontra
          have : k = j := hinj (mkKey_token_inj hcontra)
          omega
        · exact ih (k + 1)
    · simp only [processImages, hs, if_false]
      exact ih k

/-- When no entry carries the `data:image` prefix, `processImages` uploads
nothing and contributes no content part. -/
theorem processImages_nonData {bucket : String} {today : PyDate}
    {tokens : Nat → String} {putOk : Nat → Bool} :
    ∀ (urls : List String) (k : Nat),
      urls.all (fun u => !(pyStartsWith u "data:image")) = true →
      processImages bucket today tokens putOk urls k = ([], []) := by
  intro urls
  induction urls with
  | nil => intro k _; simp [processImages]
  | cons url rest ih =>
    intro k hall
    simp only [List.all_cons, Bool.and_eq_true, Bool.not_eq_true'] at hall
    obtain ⟨h1, h2⟩ := hall
    simp only [processImages, h1, Bool.false_eq_true, if_false]
    exact ih k (by simpa using h2)

/-- C1 (amended): for every request that passes validation, the handler
awaits the plain list returned by `format_messages` and therefore raises a
`TypeError` which the generic exception branch converts into the 500
response; the model is never called and no database write occurs — but the
images are not spared: `format_messages` has already run to completion, so
any valid data-URI images HAVE been uploaded before the failure (the upload
trace of the handler equals the upload trace of `format_messages`). -/
theorem c1_validated_requests_get_generic_500 (bucket : String) (today : PyDate)
    (tokens : Nat → String) (putOk : Nat → Bool)
    (modelOutcome : Except Unit CaseAnalysis) (storeOutcome : Except Unit Nat)
    (system_prompt case_title : String) (screenshot_urls : List PyVal)
    (additional_context : Option String)
    (hv : validationError case_title screenshot_urls = none) :
    analyze_case bucket today tokens putOk modelOutcome storeOutcome
        system_prompt case_title screenshot_urls additional_context =
      (HandlerResult.error 500 "An unexpected error occurred while processing the images",
       { uploads := (format_messages bucket today tokens putOk system_prompt
            (userPrompt case_title additional_context) (screenshot_urls.map pyStr)).2,
         modelCalled := false, dbAttempted := false }) := by
  unfold analyze_case
  rw [hv]

/-- Witness for C1 at a concrete validated request. -/
theorem c1_witness :
    validationError "Case W" [PyVal.str "data:image/png;base64,AAAA"] = none ∧
    analyze_case "bkt" ⟨2025, 1, 2⟩ (fun k => "tok" ++ toString k) (fun _ => true)
        (Except.ok ⟨[], "s", "kp"⟩) (Except.ok 1) "sys" "Case W"
        [PyVal.str "data:image/png;base64,AAAA"] none =
      (HandlerResult.error 500 "An unexpected error occurred while processing the images",
       { uploads := (format_messages "bkt" ⟨2025, 1, 2⟩ (fun k => "tok" ++ toString k)
            (fun _ => true) "sys"
            (userPrompt "Case W" none) ([PyVal.str "data:image/png;base64,AAAA"].map pyStr)).2,
         modelCalled := false, dbAttempted := false }) :=
  ⟨rfl, c1_validated_requests_get_generic_500 "bkt" ⟨2025, 1, 2⟩
    (fun k => "tok" ++ toString k) (fun _ => true) (Except.ok ⟨[], "s", "kp"⟩)
    (Except.ok 1) "sys" "Case W" [PyVal.str "data:image/png;base64,AAAA"] none rfl⟩

/-- C1 counterexample: a validated request with one valid data-URI image
does reach the generic 500, but its image HAS been uploaded — the upload
trace is non-empty — refuting the conjunct of C1 that says no image is
uploaded. -/
theorem c1_counterexample :
    ((analyze_case "bkt" ⟨2025, 1, 2⟩ (fun k => "tok" ++ toString k) (fun _ => true)
        (Except.ok ⟨[], "s", "kp"⟩) (Except.ok 7) "sys" "Case E"
        [PyVal.str "data:image/png;base64,AAAA"] none).1.statusOf = 500) ∧
    ((analyze_case "bkt" ⟨2025, 1, 2⟩ (fun k => "tok" ++ toString k) (fun _ => true)
        (Except.ok ⟨[], "s", "kp"⟩) (Except.ok 7) "sys" "Case E"
        [PyVal.str "data:image/png;base64,AAAA"] none).2.uploads ≠ []) :=
  ⟨rfl, by decide⟩

/-- C2 (code bug): the claimed degraded-success path — model analysis
succeeds, database write fails, response is a 200-class body with a null
case id — is exactly what the dead code at main.py:96-107 implements (last
conjunct), but the running handler never reaches it: at the concrete
failing input the model is configured to succeed and the store to fail, yet
the response is the generic 500 and neither the model call nor the database
write is ever attempted. -/
theorem c2_store_failure_path_unreachable :
    ((analyze_case "bkt" ⟨2025, 1, 2⟩ (fun k => "tok" ++ toString k) (fun _ => true)
        (Except.ok ⟨[], "summary", "kp"⟩) (Except.error ()) "sys" "Case C"
        [PyVal.str "data:image/png;base64,AAAA"] none).1.statusOf = 500) ∧
    ((analyze_case "bkt" ⟨2025, 1, 2⟩ (fun k => "tok" ++ toString k) (fun _ => true)
        (Except.ok ⟨[], "summary", "kp"⟩) (Except.error ()) "sys" "Case C"
        [PyVal.str "data:image/png;base64,AAAA"] none).2.modelCalled = false) ∧
    ((analyze_case "bkt" ⟨2025, 1, 2⟩ (fun k => "tok" ++ toString k) (fun _ => true)
        (Except.ok ⟨[], "summary", "kp"⟩) (Except.error ()) "sys" "Case C"
        [PyVal.str "data:image/png;base64,AAAA"] none).2.dbAttempted = false) ∧
    (analyze_case_after_format "Case C" (Except.ok ⟨[], "summary", "kp"⟩)
        (Except.error ()) =
      (HandlerResult.success none "Case C" ⟨[], "summary", "kp"⟩,
       { modelCalled := true, dbAttempted := true })) :=
  ⟨rfl, rfl, rfl, rfl⟩

/-- C3 (code bug): at a concrete request whose single image fails to
normalize (a remote URL, dropped by `format_messages`), the processed image
set is empty and the claim expects a 400-class error; the dead check of
main.py:75-79 would indeed produce that 400 (last conjunct), but the
running handler returns the generic 500 instead.  The no-model-call part of
the claim does hold. -/
theorem c3_all_images_failing_gives_500_not_400 :
    ((analyze_case "bkt" ⟨2025, 1, 2⟩ (fun k => "tok" ++ toString k) (fun _ => true)
        (Except.ok ⟨[], "s", "kp"⟩) (Except.ok 17) "sys" "Case B"
        [PyVal.str "https://remote.example/a.png"] none).1 =
      HandlerResult.error 500 "An unexpected error occurred while processing the images") ∧
    ((analyze_case "bkt" ⟨2025, 1, 2⟩ (fun k => "tok" ++ toString k) (fun _ => true)
        (Except.ok ⟨[], "s", "kp"⟩) (Except.ok 17) "sys" "Case B"
        [PyVal.str "https://remote.example/a.png"] none).2.modelCalled = false) ∧
    ((analyze_case "bkt" ⟨2025, 1, 2⟩ (fun k => "tok" ++ toString k) (fun _ => true)
        (Except.ok ⟨[], "s", "kp"⟩) (Except.ok 17) "sys" "Case B"
        [PyVal.str "https://remote.example/a.png"] none).2.uploads = []) ∧
    (postFormatCheck (format_messages "bkt" ⟨2025, 1, 2⟩ (fun k => "tok" ++ toString k)
        (fun _ => true) "sys" (userPrompt "Case B" none)
        ["https://remote.example/a.png"]).1 =
      some (400, "Failed to process images. Please ensure all images are in supported formats (PNG, JPEG)")) :=
  ⟨rfl, rfl, rfl, rfl⟩

/-- C4 (code bug): at a concrete request with two images of which exactly
one fails (a remote URL, dropped), the formatting stage does drop the
failed image and keeps the surviving one (one upload, two user-content
parts), but the request does not succeed as the claim states: the handler
returns the generic 500 even though the model and store oracles are
configured to succeed. -/
theorem c4_partial_failure_request_still_500 :
    ((analyze_case "bkt" ⟨2025, 1, 2⟩ (fun k => "tok" ++ toString k) (fun _ => true)
        (Except.ok ⟨[], "s", "kp"⟩) (Except.ok 17) "sys" "Case A"
        [PyVal.str "data:image/png;base64,AAAA", PyVal.str "https://remote.example/b.png"]
        none).1 =
      HandlerResult.error 500 "An unexpected error occurred while processing the images") ∧
    ((analyze_case "bkt" ⟨2025, 1, 2⟩ (fun k => "tok" ++ toString k) (fun _ => true)
        (Except.ok ⟨[], "s", "kp"⟩) (Except.ok 17) "sys" "Case A"
        [PyVal.str "data:image/png;base64,AAAA", PyVal.str "https://remote.example/b.png"]
        none).2.uploads.length = 1) ∧
    ((format_messages "bkt" ⟨2025, 1, 2⟩ (fun k => "tok" ++ toString k) (fun _ => true)
        "sys" (userPrompt "Case A" none)
        ["data:image/png;base64,AAAA", "https://remote.example/b.png"]).1.userContent.length = 2) :=
  ⟨rfl, rfl, rfl⟩

/-- C5 (amended): the remote-URL normalizer `convert_blob_to_base64`
performs one GET on the URL with the `blob:` scheme text stripped, with the
browser-like header set and redirects followed; it fails with the fetch
error on a network error or an HTTP error status (4xx/5xx), with the
unsupported-format errors on a `text/html` content type or any content type
outside the allow-list, and otherwise produces a normalized data-URI image.
However, the pipeline never invokes it: `format_messages` drops every
payload without the `data:image` prefix — performing no fetch and handing
nothing to the model payload for such entries. -/
theorem c5_normalizer_contract_but_never_invoked (fetch : String → FetchOutcome)
    (u : String) :
    ((convert_blob_to_base64 fetch u).2 =
      { url := ⟨stripBlobScheme u.data⟩, headers := browserHeaders,
        allowRedirects := true }) ∧
    (fetch ⟨stripBlobScheme u.data⟩ = FetchOutcome.netError →
      (convert_blob_to_base64 fetch u).1 = Except.error NormError.fetchFailed) ∧
    (∀ r, fetch ⟨stripBlobScheme u.data⟩ = FetchOutcome.ok r →
      ((400 ≤ r.status ∧ r.status < 600) →
        (convert_blob_to_base64 fetch u).1 = Except.error NormError.fetchFailed) ∧
      (¬(400 ≤ r.status ∧ r.status < 600) →
        (respContentType r = "text/html" →
          (convert_blob_to_base64 fetch u).1 = Except.error NormError.htmlBlob) ∧
        (respContentType r ≠ "text/html" → isAllowedType (respContentType r) = true →
          (convert_blob_to_base64 fetch u).1 =
            Except.ok ("data:" ++ respContentType r ++ ";base64," ++ r.bodyB64)) ∧
        (respContentType r ≠ "text/html" → isAllowedType (respContentType r) = false →
          (convert_blob_to_base64 fetch u).1 =
            Except.error (NormError.unsupportedType (respContentType r))))) ∧
    (∀ (bucket : String) (today : PyDate) (tokens : Nat → String)
        (putOk : Nat → Bool) (sp up : String) (urls : List String),
      urls.all (fun x => !(pyStartsWith x "data:image")) = true →
      (format_messages bucket today tokens putOk sp up urls).2 = [] ∧
      (format_messages bucket today tokens putOk sp up urls).1.userContent =
        [ContentPart.text up]) := by
  refine ⟨?_, ?_, ?_, ?_⟩
  · simp only [convert_blob_to_base64]
    cases hf : fetch ⟨stripBlobScheme u.data⟩ with
    | netError => rfl
    | ok r =>
      dsimp only
      split_ifs <;> rfl
  · intro h
    simp only [convert_blob_to_base64, h]
  · intro r hr
    constructor
    · intro hrange
      simp only [convert_blob_to_base64, hr, if_pos hrange]
    · intro hnr
      refine ⟨?_, ?_, ?_⟩
      · intro hhtml
        simp only [convert_blob_to_base64, hr, if_neg hnr, hhtml, if_pos]
      · intro hne hal
        simp only [convert_blob_to_base64, hr, if_neg hnr, if_neg hne, hal, if_pos]
      · intro hne hal
        simp only [convert_blob_to_base64, hr, if_neg hnr, if_neg hne, hal,
          Bool.false_eq_true, if_false]
  · intro bucket today tokens putOk sp up urls hall
    unfold format_messages
    rw [processImages_nonData urls 0 hall]
    exact ⟨rfl, rfl⟩

/-- Witness for C5 at a concrete fetch oracle and URL: a 200 response with
an allow-listed content type yields the normalized data-URI. -/
theorem c5_witness :
    (convert_blob_to_base64
        (fun _ => FetchOutcome.ok ⟨200, "image/png", "QUFB"⟩)
        "blob:https://host/img").1 = Except.ok "data:image/png;base64,QUFB" := by
  have h := c5_normalizer_contract_but_never_invoked
    (fun _ => FetchOutcome.ok ⟨200, "image/png", "QUFB"⟩) "blob:https://host/img"
  have h2 := (h.2.2.1 ⟨200, "image/png", "QUFB"⟩ rfl).2 (by decide)
  exact h2.2.1 (by decide) (by decide)

/-- C5 counterexample, refuting the claim as stated at concrete inputs:
a 200 response with content type `image/tiff` is rejected as unsupported
instead of producing a normalized image; a non-2xx response (status 304)
produces an unsupported-format error rather than a fetch error; and a
remote URL submitted to the pipeline is simply dropped by
`format_messages` — nothing it could normalize ever enters the model
payload, and no upload happens for it. -/
theorem c5_counterexample :
    ((convert_blob_to_base64 (fun _ => FetchOutcome.ok ⟨200, "image/tiff", "QUFB"⟩)
        "blob:https://host/a").1 =
      Except.error (NormError.unsupportedType "image/tiff")) ∧
    ((convert_blob_to_base64 (fun _ => FetchOutcome.ok ⟨304, "", "QUFB"⟩)
        "blob:https://host/b").1 =
      Except.error (NormError.unsupportedType "")) ∧
    ((format_messages "bkt" ⟨2025, 1, 2⟩ (fun k => "tok" ++ toString k) (fun _ => true)
        "sys" "up" ["https://host/direct.png"]).1.userContent =
      [ContentPart.text "up"]) ∧
    ((format_messages "bkt" ⟨2025, 1, 2⟩ (fun k => "tok" ++ toString k) (fun _ => true)
        "sys" "up" ["https://host/direct.png"]).2 = []) :=
  ⟨rfl, rfl, rfl, rfl⟩

/-- C6: every request failing validation — empty title, empty image list,
or an image entry that is not a non-empty string — receives a 400 response,
and no pipeline stage runs: no upload, no model call, no database write. -/
theorem c6_validation_rejects_with_400 (bucket : String) (today : PyDate)
    (tokens : Nat → String) (putOk : Nat → Bool)
    (modelOutcome : Except Unit CaseAnalysis) (storeOutcome : Except Unit Nat)
    (system_prompt case_title : String) (screenshot_urls : List PyVal)
    (additional_context : Option String)
    (hbad : case_title = "" ∨ screenshot_urls = [] ∨
      ∃ v ∈ screenshot_urls, v = PyVal.nonStr ∨ v = PyVal.str "") :
    ((analyze_case bucket today tokens putOk modelOutcome storeOutcome
        system_prompt case_title screenshot_urls additional_context).1.statusOf = 400) ∧
    ((analyze_case bucket today tokens putOk modelOutcome storeOutcome
        system_prompt case_title screenshot_urls additional_context).2 =
      { uploads := [], modelCalled := false, dbAttempted := false }) := by
  have hv : ∃ d, validationError case_title screenshot_urls = some (400, d) := by
    unfold validationError
    rcases hbad with h | h | h
    · exact ⟨"Case title is required", by rw [if_pos h]⟩
    · by_cases ht : case_title = ""
      · exact ⟨"Case title is required", by rw [if_pos ht]⟩
      · exact ⟨"At least one screenshot URL is required", by rw [if_neg ht, if_pos h]⟩
    · by_cases ht : case_title = ""
      · exact ⟨"Case title is required", by rw [if_pos ht]⟩
      · by_cases hu : screenshot_urls = []
        · exact ⟨"At least one screenshot URL is required", by rw [if_neg ht, if_pos hu]⟩
        · have hany : screenshot_urls.any badEntry = true := by
            obtain ⟨v, hvmem, hvbad⟩ := h
            refine List.any_eq_true.mpr ⟨v, hvmem, ?_⟩
            rcases hvbad with rfl | rfl
            · rfl
            · rfl
          exact ⟨"Invalid screenshot URL provided",
            by rw [if_neg ht, if_neg hu, if_pos hany]⟩
  obtain ⟨d, hvd⟩ := hv
  unfold analyze_case
  rw [hvd]
  exact ⟨rfl, rfl⟩

/-- Witness for C6: a request with an empty title gets the 400 and an empty
effect trace. -/
theorem c6_witness :
    ("" = "" ∨ ([PyVal.str "x"] : List PyVal) = [] ∨
      ∃ v ∈ ([PyVal.str "x"] : List PyVal), v = PyVal.nonStr ∨ v = PyVal.str "") ∧
    ((analyze_case "bkt" ⟨2025, 1, 2⟩ (fun k => "tok" ++ toString k) (fun _ => true)
        (Except.ok ⟨[], "s", "kp"⟩) (Except.ok 1) "sys" ""
        [PyVal.str "x"] none).1.statusOf = 400) ∧
    ((analyze_case "bkt" ⟨2025, 1, 2⟩ (fun k => "tok" ++ toString k) (fun _ => true)
        (Except.ok ⟨[], "s", "kp"⟩) (Except.ok 1) "sys" ""
        [PyVal.str "x"] none).2 =
      { uploads := [], modelCalled := false, dbAttempted := false }) :=
  ⟨Or.inl rfl,
   c6_validation_rejects_with_400 "bkt" ⟨2025, 1, 2⟩ (fun k => "tok" ++ toString k)
     (fun _ => true) (Except.ok ⟨[], "s", "kp"⟩) (Except.ok 1) "sys" ""
     [PyVal.str "x"] none (Or.inl rfl)⟩

/-- C7 (amended): the Normalizer+Uploader stage is NOT all-or-nothing:
per-image failures are dropped and the surviving images — exactly the ones
whose upload succeeded, in input order — ARE handed to the model payload;
the user content is always the text part followed by the canonical URL of
each successful upload. -/
theorem c7_partial_image_sets_are_passed_on (bucket : String) (today : PyDate)
    (tokens : Nat → String) (putOk : Nat → Bool) (sp up : String)
    (urls : List String) :
    (format_messages bucket today tokens putOk sp up urls).1.userContent =
      ContentPart.text up ::
        (format_messages bucket today tokens putOk sp up urls).2.map
          (fun ev => ContentPart.imageUrl
            ("https://" ++ bucket ++ ".s3.amazonaws.com/" ++ ev.key)) := by
  unfold format_messages
  simp only
  rw [processImages_parts]

/-- C7 counterexample: with one valid and one invalid image, one image
fails yet the stage does not fail — the surviving image is handed to the
model payload (user content of length two: text plus one image part, with
exactly one upload performed). -/
theorem c7_counterexample :
    ((format_messages "bkt" ⟨2025, 1, 2⟩ (fun k => "tok" ++ toString k) (fun _ => true)
        "sys" "up" ["data:image/png;base64,AAAA", "https://remote.example/bad"]).1.userContent.length = 2) ∧
    ((format_messages "bkt" ⟨2025, 1, 2⟩ (fun k => "tok" ++ toString k) (fun _ => true)
        "sys" "up" ["data:image/png;base64,AAAA", "https://remote.example/bad"]).2.length = 1) :=
  ⟨rfl, rfl⟩

/-- C8: every uploaded image is stored under a key of the form
`cases/<year>/<month>/<day>/<token>.jpg` built from the current date of the
process clock and the freshly drawn uuid token, with the `.jpg` extension
fixed in the key while the recorded content type ranges over the whole
allow-list (png, jpeg, gif and webp included). -/
theorem c8_storage_key_format (bucket : String) (today : PyDate)
    (tokens : Nat → String) (putOk : Nat → Bool) (sp up : String)
    (urls : List String) (ev : UploadEvent)
    (hev : ev ∈ (format_messages bucket today tokens putOk sp up urls).2) :
    (∃ j, ev.key = "cases/" ++ pad4 today.year ++ "/" ++ pad2 today.month ++ "/" ++
        pad2 today.day ++ "/" ++ tokens j ++ ".jpg") ∧
    isAllowedType ev.contentType = true := by
  have hev2 : ev ∈ (processImages bucket today tokens putOk urls 0).2 := by
    simpa [format_messages] using hev
  obtain ⟨j, _, hkey, hct⟩ := processImages_keys urls 0 ev hev2
  refine ⟨⟨j, ?_⟩, hct⟩
  rw [hkey]
  simp [mkKey, strftimeYmd, String.append_assoc]

/-- The upload event produced by the concrete run used in the C8 witness. -/
def c8SampleEvent : UploadEvent :=
  { key := "cases/2025/01/02/tok0.jpg", contentType := "image/png",
    contentDisposition := "inline", acl := "public-read" }

/-- Witness for C8: the concrete upload of a png data-URI lands under a
date-and-token key with the `.jpg` extension while its content type is
`image/png`. -/
theorem c8_witness :
    (∃ j : Nat, c8SampleEvent.key =
      "cases/" ++ pad4 2025 ++ "/" ++ pad2 1 ++ "/" ++ pad2 2 ++ "/" ++
        (fun k => "tok" ++ toString k) j ++ ".jpg") ∧
    isAllowedType c8SampleEvent.contentType = true :=
  c8_storage_key_format "bkt" ⟨2025, 1, 2⟩ (fun k => "tok" ++ toString k)
    (fun _ => true) "sys" "up" ["data:image/png;base64,AAAA"] c8SampleEvent (by decide)

/-- C9 (code bug): the claim presupposes a failing model call, but the
model provider is never invoked by the running handler: at the concrete
failing input with the model oracle set to fail, the handler returns the
generic 500 without calling the model or touching the database —
while the dead continuation of main.py:96-107 (last conjunct) implements
exactly the claimed behavior: model failure gives the 500 of main.py:107
with no database write attempted. -/
theorem c9_model_failure_path_unreachable :
    ((analyze_case "bkt" ⟨2025, 1, 2⟩ (fun k => "tok" ++ toString k) (fun _ => true)
        (Except.error ()) (Except.ok 17) "sys" "Case D"
        [PyVal.str "data:image/jpeg;base64,AAAA"] none).1.statusOf = 500) ∧
    ((analyze_case "bkt" ⟨2025, 1, 2⟩ (fun k => "tok" ++ toString k) (fun _ => true)
        (Except.error ()) (Except.ok 17) "sys" "Case D"
        [PyVal.str "data:image/jpeg;base64,AAAA"] none).2.modelCalled = false) ∧
    ((analyze_case "bkt" ⟨2025, 1, 2⟩ (fun k => "tok" ++ toString k) (fun _ => true)
        (Except.error ()) (Except.ok 17) "sys" "Case D"
        [PyVal.str "data:image/jpeg;base64,AAAA"] none).2.dbAttempted = false) ∧
    (analyze_case_after_format "Case D" (Except.error ()) (Except.ok 17) =
      (HandlerResult.error 500 "An error occurred while analyzing the case",
       { modelCalled := true, dbAttempted := false })) :=
  ⟨rfl, rfl, rfl, rfl⟩

/-- Injectivity of the token supply used in the C10 witness. -/
theorem replicate_token_inj :
    Function.Injective (fun k => String.mk (List.replicate k 'a')) := by
  intro a b h
  have h2 := congrArg (fun s => s.data.length) h
  simpa using h2

/-- C10: with an injective token supply (the uuid4 contract of a random
unique token), the storage keys generated for the uploads of one request
are pairwise distinct — even for identical image bytes — since each key is
the current date plus the drawn token and distinct tokens give distinct
keys. -/
theorem c10_storage_keys_never_collide (bucket : String) (today : PyDate)
    (tokens : Nat → String) (putOk : Nat → Bool) (sp up : String)
    (urls : List String) (hinj : Function.Injective tokens) :
    ((format_messages bucket today tokens putOk sp up urls).2.map
      (fun ev => ev.key)).Pairwise (fun a b => a ≠ b) := by
  simpa [format_messages] using
    processImages_keys_pairwise hinj urls 0

/-- Witness for C10: two images with identical bytes in the same request
receive distinct keys. -/
theorem c10_witness :
    ((format_messages "bkt" ⟨2025, 1, 2⟩ (fun k => String.mk (List.replicate k 'a'))
        (fun _ => true) "sys" "up"
        ["data:image/png;base64,AAAA", "data:image/png;base64,AAAA"]).2.map
      (fun ev => ev.key)).Pairwise (fun a b => a ≠ b) :=
  c10_storage_keys_never_collide "bkt" ⟨2025, 1, 2⟩
    (fun k => String.mk (List.replicate k 'a')) (fun _ => true) "sys" "up"
    ["data:image/png;base64,AAAA", "data:image/png;base64,AAAA"] replicate_token_inj

end Tinhk
